import Mathlib

/-!
Verification of the document ingestion and content-extraction pipeline of an
Ollama-based chat application (`src/document/document_processor.py` together
with `src/document/processor_config.py`).

The pipeline is embedded shallowly:

* pure string/byte manipulation (path suffix computation, text-encoding
  detection, page concatenation, base64) is translated into executable Lean
  functions over `String` and `List (Fin 256)`;
* the external effects (the Ollama chat client, the PyMuPDF / python-docx
  parsers, the file system) are modelled as an explicit `Env` record of
  oracles; every function that performs chat calls additionally returns the
  list of `ChatCall` requests it issued, so that "how many service calls were
  made and with what payload" is part of the observable behaviour;
* fallible Python code (functions that can raise) returns `Except String α`,
  the error string being the message of the raised exception;
* Python-level positional-argument binding — which happens at call time, and
  raises `TypeError` before any body code runs when the arity is wrong — is
  made explicit for the two batch entry points, because the source calls the
  per-file helpers with argument lists that do not match their signatures.
-/

namespace DocPipe

/-! ## Byte strings and basic helpers

Python `bytes` are modelled as `List (Fin 256)`; Python `str` values as Lean
`String`.  All helpers are written with structural recursion over lists so
that every definition reduces inside the kernel. -/

/-- A single byte. -/
abbrev Byte := Fin 256

/-- Python `str` slicing `s[:n]` counts code points; so does `List.take` on
`String.data`. -/
def pyTake (s : String) (n : Nat) : String :=
  String.mk (s.data.take n)

/-- ASCII whitespace as recognised by `Char.isWhitespace`; used to model
Python `str.strip()` (the source only ever strips ordinary spaces and
newlines produced by its own extractors). -/
def stripList (l : List Char) : List Char :=
  ((l.dropWhile Char.isWhitespace).reverse.dropWhile Char.isWhitespace).reverse

/-- Model of Python `str.strip()`. -/
def pyStrip (s : String) : String :=
  String.mk (stripList s.data)

/-- Substring containment on character lists (the pattern occurs as a
contiguous run somewhere in the list). -/
def containsSub (pat : List Char) : List Char → Bool
  | [] => pat.isEmpty
  | c :: rest => pat.isPrefixOf (c :: rest) || containsSub pat rest

/-- Model of Python `sub in s` (substring containment). -/
def pyContains (s sub : String) : Bool :=
  containsSub sub.data s.data

/-- Model of Python `s.startswith(p)`. -/
def pyStartsWith (s p : String) : Bool :=
  p.data.isPrefixOf s.data

/-- Split a character list at every occurrence of the separator character. -/
def splitOnChar (sep : Char) : List Char → List (List Char)
  | [] => [[]]
  | c :: rest =>
    let r := splitOnChar sep rest
    if c = sep then [] :: r
    else
      match r with
      | [] => [[c]]
      | g :: gs => (c :: g) :: gs

/-- Model of `pathlib.Path(filename).name`: the final path component
(components split on `/`, with empty and `.` components dropped, as pathlib
normalises them away). -/
def pathName (filename : String) : String :=
  String.mk ((((splitOnChar '/' filename.data).filter
    (fun c => c ≠ [] ∧ c ≠ ['.'])).getLast?).getD [])

/-- Index of the last occurrence of a character, if any. -/
def lastIndexOf (c : Char) (l : List Char) : Option Nat :=
  match l with
  | [] => none
  | x :: rest =>
    match lastIndexOf c rest with
    | some i => some (i + 1)
    | none => if x = c then some 0 else none

/-- Model of `pathlib.Path(filename).suffix`: the substring of the name from
its last dot, provided that dot is neither the first nor the last character
of the name; otherwise the empty string. -/
def pathSuffix (filename : String) : String :=
  let name := (pathName filename).data
  match lastIndexOf '.' name with
  | none => ""
  | some i => if 0 < i ∧ i + 1 < name.length then String.mk (name.drop i) else ""

/-- Model of Python `str.lower()` (the extensions being lowercased are
ASCII). -/
def pyLower (s : String) : String :=
  String.mk (s.data.map Char.toLower)

/-- Join a list of strings with a separator. -/
def joinWith (sep : String) : List String → String
  | [] => ""
  | [s] => s
  | s :: rest => s ++ sep ++ joinWith sep rest

/-! ## Configuration and data model (`processor_config.py`) -/

/-- `ProcessingConfig` from `processor_config.py`.  `allowed_mime_types` is a
finite map represented as an association list; Python's `set` values are
represented as lists (membership is all the source ever uses).  The
`temperature` field (a float passed through verbatim to the service client)
is omitted: it never influences control flow. -/
structure ProcessingConfig where
  max_file_size : Nat
  text_extract_limit : Nat
  ollama_model : String
  vision_model : String
  allowed_extensions : List String
  allowed_mime_types : List (String × List String)
deriving Repr, DecidableEq

/-- The default `ProcessingConfig` built by `__post_init__` (model names come
from the environment; they are held abstract as fixed strings here). -/
def defaultConfig : ProcessingConfig where
  max_file_size := 100 * 1024 * 1024
  text_extract_limit := 10000
  ollama_model := "DEFAULT_MODEL"
  vision_model := "VISION_MODEL"
  allowed_extensions := [".pdf", ".docx", ".txt", ".jpg", ".jpeg", ".png"]
  allowed_mime_types :=
    [ (".pdf", ["application/pdf"])
    , (".docx", ["application/vnd.openxmlformats-officedocument.wordprocessingml.document"])
    , (".txt", ["text/plain", "text/csv"])
    , (".jpg", ["image/jpeg"])
    , (".jpeg", ["image/jpeg"])
    , (".png", ["image/png"]) ]

/-- The dictionary produced by `_get_file_info`. -/
structure FileInfo where
  filename : String
  extension : String
  size : Nat
  mime_type : String
deriving Repr, DecidableEq

/-- One request to the Ollama `AsyncClient.chat` endpoint.  The constant
`think=True` flag and the config temperature are elided (they never vary);
`images` is the list of base64 payloads attached to the user message. -/
structure ChatCall where
  model : String
  content : String
  images : List String
deriving Repr, DecidableEq

/-- A `chainlit.File` as consumed by `process_single_file_async` /
`_read_bytes`: a name, a mime type, and either inline byte content or a disk
path. -/
structure CLFile where
  name : String
  mime : String
  content : Option (List Byte)
  path : Option String
deriving Repr, DecidableEq

/-- A parsed DOCX document as seen by `_extract_text_from_docx_bytes`:
paragraph texts and tables (rows of cell texts). -/
structure DocxDoc where
  paragraphs : List String
  tables : List (List (List String))
deriving Repr, DecidableEq

/-- The external world: the Ollama chat client (returning either the
response `message.content` or the message of the exception it raised), the
PyMuPDF parser (a PDF is abstracted to its list of per-page extracted
texts), the python-docx parser, and the file system used by `_read_bytes`
for path-backed files. -/
structure Env where
  chat : ChatCall → Except String String
  pdfParse : List Byte → Except String (List String)
  docxParse : List Byte → Except String DocxDoc
  readPath : String → Except String (List Byte)

/-! ## Validation (`_get_file_info`, `_get_expected_mime_types`,
`_validate_file`) -/

/-- `_get_file_info`: filename, lowercased suffix, byte length, declared
mime type. -/
def get_file_info (filename : String) (file_bytes : List Byte)
    (file_mime : String) : FileInfo where
  filename := filename
  extension := pyLower (pathSuffix filename)
  size := file_bytes.length
  mime_type := file_mime

/-- `_get_expected_mime_types`: `config.allowed_mime_types.get(ext.lower(), set())`. -/
def get_expected_mime_types (cfg : ProcessingConfig) (extension : String) :
    List String :=
  ((cfg.allowed_mime_types.find? (fun p => p.1 = pyLower extension)).map Prod.snd).getD []

/-- Python `repr` of a set of strings, as interpolated into the
content-type-mismatch message (element order in a Python `set` repr is
unspecified; the model uses the configured list order). -/
def pySetRepr (l : List String) : String :=
  "\x7b" ++ joinWith ", " (l.map (fun s => "\x27" ++ s ++ "\x27")) ++ "\x7d"

/-- `_validate_file`: the four checks, in source order — extension
whitelist, declared content-type against the per-extension set (when that
set is non-empty), inclusive size bound, filename safety.  Errors carry the
`ValueError` message raised by the source. -/
def validate_file (cfg : ProcessingConfig) (filename : String)
    (file_bytes : List Byte) (file_mime : String) : Except String FileInfo :=
  let info := get_file_info filename file_bytes file_mime
  if info.extension ∉ cfg.allowed_extensions then
    .error ("Unsupported file extension: " ++ info.extension)
  else
    let expected := get_expected_mime_types cfg info.extension
    if expected ≠ [] ∧ info.mime_type ∉ expected then
      .error ("File content doesn\x27t match extension: " ++ info.extension ++
        ". Expected: " ++ pySetRepr expected ++ ", Got: " ++ info.mime_type)
    else if info.size > cfg.max_file_size then
      .error ("File size (" ++ toString info.size ++ " bytes) exceeds limit (" ++
        toString cfg.max_file_size ++ " bytes)")
    else if pyContains filename ".." ∨ pyStartsWith filename "/" then
      .error "Invalid filename: potential path traversal detected"
    else
      .ok info

/-! ## Summarization adapter (`_clean_and_summarize_text`) -/

/-- The structured-summary prompt built by `_clean_and_summarize_text` (the
f-string's leading indentation whitespace is condensed; its sentences and
ordering are kept). -/
def summarizePrompt (doc_type text : String) : String :=
  "You are an expert assistant specialized in summarizing " ++ doc_type ++
  " content.\n" ++
  "Your task is to create a structured, accurate, and concise summary.\n" ++
  "Analyze the document carefully and produce the following:\n" ++
  "1. **Summary:** A clear and concise overview capturing the main ideas and purpose.\n" ++
  "2. **Key Points & Facts:** Extract the most relevant information, data, arguments, or findings. Use bullet points for readability.\n" ++
  "3. **Context & Importance:** Explain why the content matters or what it is intended for.\n" ++
  "4. **Actionable Insights / Conclusions:** Highlight any decisions, recommendations, next steps, or implications.\n" ++
  "**Guidelines:** Preserve essential meaning and details. Avoid unnecessary filler or repetition. Use simple, easy-to-understand language. Maintain neutrality and do not add external information.\n" ++
  "---\n" ++
  "**Content to summarize:**\n" ++ text

/-- The request `_clean_and_summarize_text` sends to the text model. -/
def summarize_call (cfg : ProcessingConfig) (doc_type text : String) : ChatCall where
  model := cfg.ollama_model
  content := summarizePrompt doc_type text
  images := []

/-- `_clean_and_summarize_text`.  Returns the produced string together with
the list of chat requests issued.  Empty/whitespace-only input
short-circuits with the fixed message and no request; a service failure is
caught and degraded to the `Original content` fallback holding the first
`text_extract_limit` characters of the input.  The function never fails. -/
def clean_and_summarize_text (cfg : ProcessingConfig) (env : Env)
    (text : String) (doc_type : String) : String × List ChatCall :=
  if text = "" ∨ pyStrip text = "" then
    ("No extractable text content found.", [])
  else
    let call := summarize_call cfg doc_type text
    match env.chat call with
    | .ok content => (content, [call])
    | .error _ =>
      ("Original content:\n\n" ++ pyTake text cfg.text_extract_limit, [call])

/-! ## Plain-text decoding (`_extract_text_from_txt_bytes`)

The Python codecs tried by the source are external library code; they are
embedded concretely: a full UTF-8 decoder (RFC 3629 ranges, surrogates and
overlongs rejected), Latin-1 / ISO-8859-1 (total: every byte maps to the
code point of its value), and Windows-1252 (the 27 remapped C1 positions,
with the five unassigned bytes failing). -/

/-- Is the byte a UTF-8 continuation byte (`0x80..0xBF`)? -/
def isCont (b : Byte) : Bool := 0x80 ≤ b.val && b.val < 0xC0

/-- Parse one UTF-8 scalar from the front of the byte list, returning the
decoded character and the remaining bytes, or `none` on an invalid
sequence. -/
def utf8ParseOne : List Byte → Option (Char × List Byte)
  | [] => none
  | b1 :: rest =>
    if b1.val < 0x80 then
      some (Char.ofNat b1.val, rest)
    else if b1.val < 0xC2 then none
    else if b1.val < 0xE0 then
      match rest with
      | b2 :: rest2 =>
        if isCont b2 then
          some (Char.ofNat ((b1.val - 0xC0) * 0x40 + (b2.val - 0x80)), rest2)
        else none
      | [] => none
    else if b1.val < 0xF0 then
      match rest with
      | b2 :: b3 :: rest3 =>
        let lo2 := if b1.val = 0xE0 then 0xA0 else 0x80
        let hi2 := if b1.val = 0xED then 0xA0 else 0xC0
        if lo2 ≤ b2.val && b2.val < hi2 && isCont b3 then
          some (Char.ofNat ((b1.val - 0xE0) * 0x1000 +
            (b2.val - 0x80) * 0x40 + (b3.val - 0x80)), rest3)
        else none
      | _ => none
    else if b1.val < 0xF5 then
      match rest with
      | b2 :: b3 :: b4 :: rest4 =>
        let lo2 := if b1.val = 0xF0 then 0x90 else 0x80
        let hi2 := if b1.val = 0xF4 then 0x90 else 0xC0
        if lo2 ≤ b2.val && b2.val < hi2 && isCont b3 && isCont b4 then
          some (Char.ofNat ((b1.val - 0xF0) * 0x40000 +
            (b2.val - 0x80) * 0x1000 + (b3.val - 0x80) * 0x40 +
            (b4.val - 0x80)), rest4)
        else none
      | _ => none
    else none

/-- Strict UTF-8 decoding of a byte list (fuel is the list length: every
parsed scalar consumes at least one byte). -/
def utf8DecodeF : Nat → List Byte → Option (List Char)
  | _, [] => some []
  | 0, _ :: _ => none
  | fuel + 1, bs =>
    match utf8ParseOne bs with
    | some (c, rest) => (utf8DecodeF fuel rest).map (fun cs => c :: cs)
    | none => none

/-- Model of `bytes.decode('utf-8')`: `some` of the text, or `none` where
Python raises `UnicodeDecodeError`. -/
def utf8DecodeStr (bs : List Byte) : Option String :=
  (utf8DecodeF bs.length bs).map String.mk

/-- Model of `bytes.decode('utf-8', errors='replace')`: invalid sequences
are replaced by U+FFFD (replacement granularity approximates the stdlib;
this branch of the source is unreachable, see `txt_decode_total`). -/
def utf8ReplaceF : Nat → List Byte → List Char
  | _, [] => []
  | 0, _ => []
  | fuel + 1, b :: tail =>
    match utf8ParseOne (b :: tail) with
    | some (c, rest) => c :: utf8ReplaceF fuel rest
    | none => Char.ofNat 0xFFFD :: utf8ReplaceF fuel tail

/-- Latin-1 / ISO-8859-1 decoding: total, each byte becomes the character
with the same code point. -/
def latin1String (bs : List Byte) : String :=
  String.mk (bs.map (fun b => Char.ofNat b.val))

/-- Model of `bytes.decode('latin-1')` — never raises. -/
def latin1DecodeStr (bs : List Byte) : Option String :=
  some (latin1String bs)

/-- Windows-1252 mapping of a single byte: identity outside `0x80..0x9F`,
the standard remap table inside it, failing on the five unassigned bytes
`0x81, 0x8D, 0x8F, 0x90, 0x9D`. -/
def cp1252Byte (b : Byte) : Option Char :=
  if b.val < 0x80 ∨ 0xA0 ≤ b.val then some (Char.ofNat b.val)
  else match b.val with
    | 0x80 => some (Char.ofNat 0x20AC)
    | 0x82 => some (Char.ofNat 0x201A)
    | 0x83 => some (Char.ofNat 0x0192)
    | 0x84 => some (Char.ofNat 0x201E)
    | 0x85 => some (Char.ofNat 0x2026)
    | 0x86 => some (Char.ofNat 0x2020)
    | 0x87 => some (Char.ofNat 0x2021)
    | 0x88 => some (Char.ofNat 0x02C6)
    | 0x89 => some (Char.ofNat 0x2030)
    | 0x8A => some (Char.ofNat 0x0160)
    | 0x8B => some (Char.ofNat 0x2039)
    | 0x8C => some (Char.ofNat 0x0152)
    | 0x8E => some (Char.ofNat 0x017D)
    | 0x91 => some (Char.ofNat 0x2018)
    | 0x92 => some (Char.ofNat 0x2019)
    | 0x93 => some (Char.ofNat 0x201C)
    | 0x94 => some (Char.ofNat 0x201D)
    | 0x95 => some (Char.ofNat 0x2022)
    | 0x96 => some (Char.ofNat 0x2013)
    | 0x97 => some (Char.ofNat 0x2014)
    | 0x98 => some (Char.ofNat 0x02DC)
    | 0x99 => some (Char.ofNat 0x2122)
    | 0x9A => some (Char.ofNat 0x0161)
    | 0x9B => some (Char.ofNat 0x203A)
    | 0x9C => some (Char.ofNat 0x0153)
    | 0x9E => some (Char.ofNat 0x017E)
    | 0x9F => some (Char.ofNat 0x0178)
    | _ => none

/-- Model of `bytes.decode('windows-1252')`. -/
def cp1252DecodeStr (bs : List Byte) : Option String :=
  (bs.mapM cp1252Byte).map String.mk

/-- Model of `bytes.decode('iso-8859-1')`: in Python this codec is an alias
of Latin-1. -/
def iso88591DecodeStr (bs : List Byte) : Option String :=
  latin1DecodeStr bs

/-- The ordered encoding attempts of `_extract_text_from_txt_bytes`:
`['utf-8', 'latin-1', 'windows-1252', 'iso-8859-1']`. -/
def txtEncodings : List (List Byte → Option String) :=
  [utf8DecodeStr, latin1DecodeStr, cp1252DecodeStr, iso88591DecodeStr]

/-- The `for encoding in encodings: try ... break / except continue` loop:
first decoder that succeeds wins. -/
def decodeLoop : List (List Byte → Option String) → List Byte → Option String
  | [], _ => none
  | f :: fs, bs =>
    match f bs with
    | some t => some t
    | none => decodeLoop fs bs

/-- The full decode step of `_extract_text_from_txt_bytes`: the encoding
loop, then — only when every attempt failed — the permissive
`errors='replace'` fallback.  Total by construction. -/
def decode_txt_bytes (bs : List Byte) : String :=
  match decodeLoop txtEncodings bs with
  | some t => t
  | none => String.mk (utf8ReplaceF bs.length bs)

/-! ## PDF and DOCX text assembly -/

/-- The page header `f"\n--- Page {page_num + 1} ---\n"`. -/
def pageDelim (n : Nat) : String :=
  "\n--- Page " ++ toString n ++ " ---\n"

/-- The page loop of `_extract_text_from_pdf_bytes`: enumerate the pages,
appending a delimited block for every page whose extracted text is
non-empty (`if page_text:`). -/
def pdfRawTextAux : Nat → String → List String → String
  | _, text, [] => text
  | n, text, p :: ps =>
    pdfRawTextAux (n + 1)
      (if p ≠ "" then text ++ pageDelim (n + 1) ++ p else text) ps

/-- Raw concatenated page text of a PDF (before truncation and
summarization). -/
def pdfRawText (pages : List String) : String :=
  pdfRawTextAux 0 "" pages

/-- The paragraph/table loops of `_extract_text_from_docx_bytes`. -/
def docxRawText (d : DocxDoc) : String :=
  let paraText := d.paragraphs.foldl
    (fun t p => if p ≠ "" then t ++ p ++ "\n" else t) ""
  d.tables.foldl
    (fun t table => table.foldl
      (fun t row =>
        let row_text := joinWith " | " (row.filter (fun c => c ≠ ""))
        if row_text ≠ "" then t ++ "Table row: " ++ row_text ++ "\n" else t)
      t)
    paraText

/-! ## Image path (`_extract_content_from_image_bytes`) -/

/-- Standard base64 alphabet. -/
def base64Chars : List Char :=
  "ABCDEFGHIJKLMNOPQRSTUVWXYZabcdefghijklmnopqrstuvwxyz0123456789+/".data

def b64Char (n : Nat) : Char := base64Chars.getD n 'A'

/-- Model of `base64.b64encode(bytes).decode('utf-8')`. -/
def base64Encode : List Byte → String
  | [] => ""
  | [a] =>
    String.mk [b64Char (a.val / 4), b64Char (a.val % 4 * 16), '=', '=']
  | [a, b] =>
    String.mk [b64Char (a.val / 4), b64Char (a.val % 4 * 16 + b.val / 16),
      b64Char (b.val % 16 * 4), '=']
  | a :: b :: c :: rest =>
    String.mk [b64Char (a.val / 4), b64Char (a.val % 4 * 16 + b.val / 16),
      b64Char (b.val % 16 * 4 + c.val / 64), b64Char (c.val % 64)] ++
    base64Encode rest

/-- The fixed vision-analysis prompt of `_extract_content_from_image_bytes`
(f-string indentation condensed, sentences kept). -/
def visionPrompt : String :=
  "You are an expert vision-analysis assistant.\n" ++
  "Analyze the image carefully and provide a structured, detailed report containing:\n" ++
  "1. **Extracted Text (OCR):** Transcribe all visible text exactly as it appears. Preserve line breaks, formatting, and labels when helpful.\n" ++
  "2. **Visual Description:** Describe all key elements in the image (objects, layout, colors, UI elements, diagrams, charts, people, etc.). Explain spatial relationships.\n" ++
  "3. **Key Information & Data:** Identify important information the image conveys. If the image is a document, form, screenshot, diagram, or code snippet, summarize its core content.\n" ++
  "4. **Context & Purpose:** Explain what the image is likely used for. Provide potential intent or user action implied by the image.\n" ++
  "5. **Concise Summary:** A short, easy-to-understand summary of the most important information from the image.\n" ++
  "**Guidelines:** Be objective: do not hallucinate nonexistent text or content. If a section has no information, state \x22None found\x22. Make the response organized using headings and bullet points.\n" ++
  "The image will be provided separately."

/-- The request sent to the vision model. -/
def vision_call (cfg : ProcessingConfig) (image_base64 : String) : ChatCall where
  model := cfg.vision_model
  content := visionPrompt
  images := [image_base64]

/-- `_extract_content_from_image_bytes`: base64-encode, call the vision
model, then pass the vision report through `_clean_and_summarize_text`.
The whole body sits in a `try` whose handler re-raises
`ValueError(f"Failed to process image: {e}")`; since
`clean_and_summarize_text` is total, the only raising call is the vision
one. -/
def extract_content_from_image_bytes (cfg : ProcessingConfig) (env : Env)
    (image_bytes : List Byte) : Except String String × List ChatCall :=
  let b64 := base64Encode image_bytes
  let vcall := vision_call cfg b64
  match env.chat vcall with
  | .error e => (.error ("Failed to process image: " ++ e), [vcall])
  | .ok report =>
    let res := clean_and_summarize_text cfg env report "image"
    (.ok res.1, vcall :: res.2)

/-! ## Remaining extractors and the orchestrator -/

/-- `_extract_text_from_pdf_bytes`: parse (PyMuPDF, abstracted to the page
texts), concatenate delimited pages, truncate to the configured limit,
summarize.  A parser failure is re-raised as
`ValueError(f"Failed to process PDF: {e}")`. -/
def extract_text_from_pdf_bytes (cfg : ProcessingConfig) (env : Env)
    (pdf_bytes : List Byte) : Except String String × List ChatCall :=
  match env.pdfParse pdf_bytes with
  | .error e => (.error ("Failed to process PDF: " ++ e), [])
  | .ok pages =>
    let res := clean_and_summarize_text cfg env
      (pyTake (pdfRawText pages) cfg.text_extract_limit) "PDF"
    (.ok res.1, res.2)

/-- `_extract_text_from_docx_bytes`. -/
def extract_text_from_docx_bytes (cfg : ProcessingConfig) (env : Env)
    (docx_bytes : List Byte) : Except String String × List ChatCall :=
  match env.docxParse docx_bytes with
  | .error e => (.error ("Failed to process DOCX: " ++ e), [])
  | .ok d =>
    let res := clean_and_summarize_text cfg env
      (pyStrip (pyTake (docxRawText d) cfg.text_extract_limit)) "DOCX"
    (.ok res.1, res.2)

/-- `_extract_text_from_txt_bytes`: the (total) decode step, truncation,
summarization.  No failing call remains inside its `try`. -/
def extract_text_from_txt_bytes (cfg : ProcessingConfig) (env : Env)
    (txt_bytes : List Byte) : Except String String × List ChatCall :=
  let res := clean_and_summarize_text cfg env
    (pyTake (decode_txt_bytes txt_bytes) cfg.text_extract_limit) "TXT"
  (.ok res.1, res.2)

/-- `process_document_async`: input presence check, validation, dispatch on
the validated extension through `file_processor_map`, extraction.  All
errors propagate (`except ...: raise`). -/
def process_document_async (cfg : ProcessingConfig) (env : Env)
    (filename : String) (file_bytes : List Byte) (file_mime : String) :
    Except String String × List ChatCall :=
  if filename = "" ∨ file_bytes = [] then
    (.error "Filename and file_bytes are required", [])
  else
    match validate_file cfg filename file_bytes file_mime with
    | .error e => (.error e, [])
    | .ok info =>
      if info.extension = ".pdf" then
        extract_text_from_pdf_bytes cfg env file_bytes
      else if info.extension = ".docx" then
        extract_text_from_docx_bytes cfg env file_bytes
      else if info.extension = ".txt" then
        extract_text_from_txt_bytes cfg env file_bytes
      else if info.extension = ".jpg" ∨ info.extension = ".jpeg" ∨
          info.extension = ".png" then
        extract_content_from_image_bytes cfg env file_bytes
      else
        (.error ("Unsupported file extension: " ++ info.extension), [])

/-! ## Batch entry points

Python binds positional arguments at call time: a call whose argument list
does not fit the callee's signature raises `TypeError` immediately, before
any body code (and before a coroutine object is even created).  Both batch
entry points of the source call their per-file helper with argument lists
that do not fit, so this binding step is modelled explicitly. -/

/-- A Python positional argument as passed by the batch loops. -/
inductive PyArg where
  | str (s : String)
  | bytes (bs : List Byte)
  | file (f : CLFile)
deriving Repr

/-- `_read_bytes`: inline `content` bytes if present, else read from
`path`, else `ValueError`. -/
def read_bytes (env : Env) (file : CLFile) : Except String (List Byte) :=
  match file.content with
  | some bs => .ok bs
  | none =>
    match file.path with
    | some p => if p ≠ "" then env.readPath p else
        .error "File content is not available as bytes or valid path"
    | none => .error "File content is not available as bytes or valid path"

/-- `process_single_file_async(self, file)`: None check, byte read, then
`process_document_async` on the file's name, bytes and mime type. -/
def process_single_file_async (cfg : ProcessingConfig) (env : Env)
    (file : Option CLFile) : Except String String × List ChatCall :=
  match file with
  | none => (.error "File is None", [])
  | some f =>
    match read_bytes env f with
    | .error e => (.error e, [])
    | .ok bs => process_document_async cfg env f.name bs f.mime

/-- Argument binding for `process_single_file_async(self, file)`: it
accepts exactly one positional argument (a `cl.File`).  The source's
concurrent batch loop passes two (`filename, file_bytes`), which raises
`TypeError` at the call site (message as produced by CPython, counting the
bound `self`). -/
def bindProcessSingleFileArgs : List PyArg → Except String CLFile
  | [PyArg.file f] => .ok f
  | [_, _] => .error
      "DocumentProcessor.process_single_file_async() takes 2 positional arguments but 3 were given"
  | _ => .error "TypeError"

/-- Argument binding plus execution for
`process_document_async(self, filename, file_bytes, file_mime)`: all three
positional arguments are required; the source's sequential batch loop
passes only two, raising `TypeError` at the call site (before a coroutine
exists). -/
def callProcessDocumentAsync (cfg : ProcessingConfig) (env : Env) :
    List PyArg → Except String String × List ChatCall
  | [PyArg.str fn, PyArg.bytes fb, PyArg.str fm] =>
    process_document_async cfg env fn fb fm
  | [PyArg.str _, PyArg.bytes _] =>
    (.error "DocumentProcessor.process_document_async() missing 1 required positional argument: \x27file_mime\x27",
     [])
  | _ => (.error "TypeError", [])

/-- `batch_process_documents` (sequential): for each file, call
`process_document_async(filename, file_bytes)` — two arguments, and without
`await` — inside a per-file `try`.  The call raises `TypeError` (missing
`file_mime`), which the handler converts into the per-file error string; the
`.ok` branch is unreachable (and in the source would store an un-awaited
coroutine rather than a string). -/
def batch_process_documents (cfg : ProcessingConfig) (env : Env)
    (file_data : List (String × List Byte)) : List (String × String) :=
  file_data.map (fun p =>
    match callProcessDocumentAsync cfg env [PyArg.str p.1, PyArg.bytes p.2] with
    | (.ok c, _) => (p.1, c)
    | (.error e, _) => (p.1, "Error processing " ++ p.1 ++ ": " ++ e))

/-- The first loop of `batch_process_documents_async`: create one task per
file by calling `process_single_file_async(filename, file_bytes)`.  The
call's argument binding runs here, outside any `try`, so its `TypeError`
propagates and aborts the whole batch. -/
def createTasks : List (String × List Byte) → Except String (List (String × CLFile))
  | [] => .ok []
  | (fn, fb) :: rest =>
    match bindProcessSingleFileArgs [PyArg.str fn, PyArg.bytes fb] with
    | .error e => .error e
    | .ok coro =>
      match createTasks rest with
      | .error e => .error e
      | .ok ts => .ok ((fn, coro) :: ts)

/-- `batch_process_documents_async` (concurrent): create all tasks, then
await each inside a per-file `try`, isolating awaited failures into
per-filename error strings. -/
def batch_process_documents_async (cfg : ProcessingConfig) (env : Env)
    (file_data : List (String × List Byte)) :
    Except String (List (String × String)) :=
  match createTasks file_data with
  | .error e => .error e
  | .ok tasks =>
    .ok (tasks.map (fun t =>
      match process_single_file_async cfg env (some t.2) with
      | (.ok c, _) => (t.1, c)
      | (.error e, _) => (t.1, "Error processing " ++ t.1 ++ ": " ++ e)))

/-! ## Statement-side definitions -/

/-- Spec-side characterization of the PDF page concatenation, following the
spec's words: a page-delimiter header carrying the 1-based page number for
exactly those pages whose extracted text is non-empty, each followed by that
page's text, in source page order; pages with no text contribute nothing.
Compared against `pdfRawText` (translated from the source loop) in
`pdf_page_delimiters`. -/
def pdfPagesSpec : Nat → List String → String
  | _, [] => ""
  | n, p :: ps =>
    (if p ≠ "" then pageDelim (n + 1) ++ p else "") ++ pdfPagesSpec (n + 1) ps

/-- Number of (possibly overlapping) occurrences of a non-empty pattern in a
character list. -/
def countSubstrList (pat : List Char) : List Char → Nat
  | [] => 0
  | c :: rest =>
    (if pat.isPrefixOf (c :: rest) then 1 else 0) + countSubstrList pat rest

/-- Number of occurrences of a pattern string in a string. -/
def countSubstr (pat s : String) : Nat :=
  countSubstrList pat.data s.data

/-- The filename's lowercased suffix is in the configured allow-set (the
validator's first check passes). -/
abbrev extensionAllowed (cfg : ProcessingConfig) (filename : String) : Prop :=
  pyLower (pathSuffix filename) ∈ cfg.allowed_extensions

/-- The declared content-type passes the validator's second check: the
configured set for the extension is empty (permissive) or contains the
declared type. -/
abbrev mimeAccepted (cfg : ProcessingConfig) (filename mime : String) : Prop :=
  get_expected_mime_types cfg (pyLower (pathSuffix filename)) = [] ∨
  mime ∈ get_expected_mime_types cfg (pyLower (pathSuffix filename))

/-- The filename contains no `..` and does not start with `/`. -/
abbrev filenameSafe (filename : String) : Prop :=
  pyContains filename ".." = false ∧ pyStartsWith filename "/" = false

/-! ## Concrete fixtures used by witnesses and counterexamples -/

/-- An environment whose chat service always succeeds with a fixed summary. -/
def envOkChat : Env where
  chat := fun _ => .ok "SUMMARY TEXT"
  pdfParse := fun _ => .error "fitz unavailable"
  docxParse := fun _ => .error "docx unavailable"
  readPath := fun _ => .error "no file system"

/-- An environment whose chat service always fails with message `boom`. -/
def envBoom : Env where
  chat := fun _ => .error "boom"
  pdfParse := fun _ => .error "fitz unavailable"
  docxParse := fun _ => .error "docx unavailable"
  readPath := fun _ => .error "no file system"

/-- An environment whose chat service succeeds but returns empty content. -/
def envEmptyVision : Env where
  chat := fun _ => .ok ""
  pdfParse := fun _ => .error "fitz unavailable"
  docxParse := fun _ => .error "docx unavailable"
  readPath := fun _ => .error "no file system"

/-- An environment distinguishing the vision request (it carries an image
attachment) from the follow-up text-summarization request. -/
def envTwoStage : Env where
  chat := fun c => if c.images.isEmpty then .ok "FINAL SUMMARY" else .ok "VISION REPORT"
  pdfParse := fun _ => .error "fitz unavailable"
  docxParse := fun _ => .error "docx unavailable"
  readPath := fun _ => .error "no file system"

/-- The bytes of the ASCII text `hello`. -/
def helloBytes : List Byte := [104, 101, 108, 108, 111]

/-- A configuration with a 2-byte size limit, to exercise the size check on
small concrete inputs. -/
def cfgTiny : ProcessingConfig := { defaultConfig with max_file_size := 2 }

/-- Decidable equality for `Except`, so closed pipeline results can be
compared by `decide`. -/
instance {ε α : Type} [DecidableEq ε] [DecidableEq α] : DecidableEq (Except ε α)
  | .ok a, .ok b =>
    if h : a = b then .isTrue (by rw [h])
    else .isFalse (by intro he; cases he; exact h rfl)
  | .ok _, .error _ => .isFalse (by intro h; cases h)
  | .error _, .ok _ => .isFalse (by intro h; cases h)
  | .error a, .error b =>
    if h : a = b then .isTrue (by rw [h])
    else .isFalse (by intro he; cases he; exact h rfl)

/-! ## Claim theorems -/

/-- C5: for every input text that is empty or consists only of whitespace,
the summarization adapter returns the fixed message
`No extractable text content found.` and issues no request to the external
service (its call trace is empty). -/
theorem summarize_empty_short_circuit (cfg : ProcessingConfig) (env : Env)
    (text doc_type : String) (h : text = "" ∨ pyStrip text = "") :
    clean_and_summarize_text cfg env text doc_type =
      ("No extractable text content found.", []) := by
  unfold clean_and_summarize_text
  rw [if_pos h]

/-- Witness for C5: a whitespace-only input short-circuits with the fixed
message and an empty call trace. -/
theorem summarize_empty_short_circuit_witness :
    ("  \n " = "" ∨ pyStrip "  \n " = "") ∧
    clean_and_summarize_text defaultConfig envBoom "  \n " "TXT" =
      ("No extractable text content found.", []) :=
  ⟨Or.inr (by decide),
   summarize_empty_short_circuit defaultConfig envBoom "  \n " "TXT"
     (Or.inr (by decide))⟩

/-- C4: for every non-whitespace text, if the summarization service call
fails with any exception, the adapter does not propagate the failure (it
returns normally, being a total function into `String`) and produces the
fallback `Original content:` header followed by the first
`text_extract_limit` characters of the original text. -/
theorem summarize_failure_fallback (cfg : ProcessingConfig) (env : Env)
    (text doc_type e : String) (h1 : text ≠ "") (h2 : pyStrip text ≠ "")
    (h : env.chat (summarize_call cfg doc_type text) = .error e) :
    clean_and_summarize_text cfg env text doc_type =
      ("Original content:\n\n" ++ pyTake text cfg.text_extract_limit,
       [summarize_call cfg doc_type text]) := by
  unfold clean_and_summarize_text
  rw [if_neg (by rintro (h' | h') <;> [exact h1 h'; exact h2 h'])]
  simp only [h]

/-- Witness for C4: with a chat service that always raises `boom`, the text
`hello` degrades to `Original content:` plus the original text. -/
theorem summarize_failure_fallback_witness :
    ("hello" ≠ "" ∧ pyStrip "hello" ≠ "" ∧
      envBoom.chat (summarize_call defaultConfig "TXT" "hello") = .error "boom") ∧
    clean_and_summarize_text defaultConfig envBoom "hello" "TXT" =
      ("Original content:\n\n" ++ pyTake "hello" defaultConfig.text_extract_limit,
       [summarize_call defaultConfig "TXT" "hello"]) :=
  ⟨⟨by decide, by decide, rfl⟩,
   summarize_failure_fallback defaultConfig envBoom "hello" "TXT" "boom"
     (by decide) (by decide) rfl⟩

/-- C9: the plain-text decode step is total and returns the decoding under
the first encoding of the ordered list that decodes without error: the
UTF-8 decoding when the bytes are valid UTF-8, and otherwise the Latin-1
decoding (which, mapping every byte to the code point of its value, accepts
every byte string — so the loop never falls through to the later encodings
or to the permissive replacement fallback, and the step never fails). -/
theorem txt_decode_total (bs : List Byte) :
    decode_txt_bytes bs =
      (match utf8DecodeStr bs with
       | some t => t
       | none => latin1String bs) := by
  unfold decode_txt_bytes txtEncodings
  cases h : utf8DecodeStr bs <;>
    simp [decodeLoop, h, latin1DecodeStr]

/-- The page loop's accumulator satisfies the spec-side characterization. -/
lemma pdfRawTextAux_eq (ps : List String) :
    ∀ (n : Nat) (acc : String),
      pdfRawTextAux n acc ps = acc ++ pdfPagesSpec n ps := by
  induction ps with
  | nil =>
    intro n acc
    simp [pdfRawTextAux, pdfPagesSpec]
  | cons p ps ih =>
    intro n acc
    by_cases hp : p = ""
    · simp [pdfRawTextAux, pdfPagesSpec, hp, ih]
    · simp [pdfRawTextAux, pdfPagesSpec, hp, ih, String.append_assoc]

/-- C8: the PDF page concatenation emits a `--- Page N ---` delimiter block
(1-based `N`) for exactly the pages with non-empty extracted text, in source
page order (first conjunct: the source loop equals the spec-side
characterization `pdfPagesSpec`); in particular a 5-page document with text
only on pages 1 and 3 yields exactly two `--- Page` delimiters, for pages 1
and 3, in that order. -/
theorem pdf_page_delimiters :
    (∀ pages : List String, pdfRawText pages = pdfPagesSpec 0 pages) ∧
    pdfRawText ["Alpha body", "", "Gamma body", "", ""] =
      "\n--- Page 1 ---\nAlpha body\n--- Page 3 ---\nGamma body" ∧
    countSubstr "--- Page" (pdfRawText ["Alpha body", "", "Gamma body", "", ""]) = 2 :=
  ⟨fun pages => by
      rw [pdfRawText, pdfRawTextAux_eq, String.empty_append],
   by decide, by decide⟩

/-- Counterexample to C3 as stated: with a vision service that fails with
`boom`, the image extraction path returns `Except.error` — the failure is
re-raised to the caller as `ValueError("Failed to process image: ...")`
instead of being degraded to fallback text. -/
theorem image_vision_failure_cex :
    extract_content_from_image_bytes defaultConfig envBoom [] =
      (.error "Failed to process image: boom",
       [vision_call defaultConfig ""]) := by
  rfl

/-- C3 (amended): a failure of the vision-model call is caught and re-raised
to the caller of the image extraction path as
`ValueError(f"Failed to process image: {e}")` (first conjunct); the degrade
policy applies only to the follow-up text-summarization call on the vision
report — whenever the vision call itself succeeds, the image path returns
successfully with the (possibly degraded) summarization result, whatever the
summarization service does (second conjunct). -/
theorem image_vision_error_policy :
    (∀ (cfg : ProcessingConfig) (env : Env) (image_bytes : List Byte) (e : String),
      env.chat (vision_call cfg (base64Encode image_bytes)) = .error e →
      extract_content_from_image_bytes cfg env image_bytes =
        (.error ("Failed to process image: " ++ e),
         [vision_call cfg (base64Encode image_bytes)])) ∧
    (∀ (cfg : ProcessingConfig) (env : Env) (image_bytes : List Byte) (report : String),
      env.chat (vision_call cfg (base64Encode image_bytes)) = .ok report →
      (extract_content_from_image_bytes cfg env image_bytes).1 =
        .ok (clean_and_summarize_text cfg env report "image").1) := by
  constructor <;> intro cfg env image_bytes x h <;>
    unfold extract_content_from_image_bytes <;> simp only [h]

/-- Witness for C3 (amended): at a concrete failing vision service the image
path raises `Failed to process image: boom`, and at a concrete succeeding
one it returns the summarization of the vision report. -/
theorem image_vision_error_policy_witness :
    (envBoom.chat (vision_call defaultConfig (base64Encode [])) = .error "boom" ∧
     extract_content_from_image_bytes defaultConfig envBoom [] =
       (.error ("Failed to process image: " ++ "boom"),
        [vision_call defaultConfig (base64Encode [])])) ∧
    (envTwoStage.chat (vision_call defaultConfig (base64Encode [])) = .ok "VISION REPORT" ∧
     (extract_content_from_image_bytes defaultConfig envTwoStage []).1 =
       .ok (clean_and_summarize_text defaultConfig envTwoStage "VISION REPORT" "image").1) :=
  ⟨⟨rfl, image_vision_error_policy.1 defaultConfig envBoom [] "boom" rfl⟩,
   ⟨rfl, image_vision_error_policy.2 defaultConfig envTwoStage [] "VISION REPORT" rfl⟩⟩

/-- Counterexample to C10 as stated: when the vision model succeeds but
returns empty content, the image is processed successfully (the path
returns `Except.ok`) with only one service invocation — the summarization
model is never called, so a successful image run does not always invoke the
service twice. -/
theorem image_single_call_cex :
    extract_content_from_image_bytes defaultConfig envEmptyVision [] =
      (.ok "No extractable text content found.",
       [vision_call defaultConfig (base64Encode [])]) ∧
    (extract_content_from_image_bytes defaultConfig envEmptyVision []).2.length = 1 := by
  exact ⟨rfl, rfl⟩

/-- C10 (amended): when the vision call succeeds with a report that is
neither empty nor whitespace-only, the image pipeline invokes the service
exactly twice — first the vision model on the base64-encoded image, then
the text model on the vision report — and the value returned for the image
is the text-model summary of that report (or, if the second call fails, its
degraded fallback), never the vision output verbatim by construction. -/
theorem image_two_model_calls (cfg : ProcessingConfig) (env : Env)
    (image_bytes : List Byte) (report : String)
    (hok : env.chat (vision_call cfg (base64Encode image_bytes)) = .ok report)
    (h1 : report ≠ "") (h2 : pyStrip report ≠ "") :
    extract_content_from_image_bytes cfg env image_bytes =
      (.ok (match env.chat (summarize_call cfg "image" report) with
            | .ok s => s
            | .error _ =>
              "Original content:\n\n" ++ pyTake report cfg.text_extract_limit),
       [vision_call cfg (base64Encode image_bytes),
        summarize_call cfg "image" report]) := by
  unfold extract_content_from_image_bytes
  simp only [hok]
  unfold clean_and_summarize_text
  rw [if_neg (by rintro (h' | h') <;> [exact h1 h'; exact h2 h'])]
  cases hc : env.chat (summarize_call cfg "image" report) <;> simp [hc]

/-- Witness for C10 (amended): with a two-stage service the image path makes
exactly the vision call followed by the summarization call and returns the
final summary. -/
theorem image_two_model_calls_witness :
    (envTwoStage.chat (vision_call defaultConfig (base64Encode [])) = .ok "VISION REPORT" ∧
     "VISION REPORT" ≠ "" ∧ pyStrip "VISION REPORT" ≠ "") ∧
    extract_content_from_image_bytes defaultConfig envTwoStage [] =
      (.ok (match envTwoStage.chat (summarize_call defaultConfig "image" "VISION REPORT") with
            | .ok s => s
            | .error _ =>
              "Original content:\n\n" ++
                pyTake "VISION REPORT" defaultConfig.text_extract_limit),
       [vision_call defaultConfig (base64Encode []),
        summarize_call defaultConfig "image" "VISION REPORT"]) :=
  ⟨⟨rfl, by decide, by decide⟩,
   image_two_model_calls defaultConfig envTwoStage [] "VISION REPORT"
     rfl (by decide) (by decide)⟩

/-- Counterexample to C6 as stated: a 3-byte file under a 2-byte limit whose
extension is not in the allow-set fails with `UnsupportedExtension`, not
with the `FileTooLarge` error — the earlier check masks the size check, so
"byte length > maximum implies failure with FileTooLarge" does not hold
unconditionally. -/
theorem size_over_limit_masked_cex :
    validate_file cfgTiny "a.exe" [0, 0, 0] "text/plain" =
      .error "Unsupported file extension: .exe" ∧
    validate_file cfgTiny "a.exe" [0, 0, 0] "text/plain" ≠
      .error ("File size (3 bytes) exceeds limit (2 bytes)") := by
  exact ⟨rfl, by decide⟩

/-- C6 (amended): a file whose byte length strictly exceeds the configured
maximum never validates (first conjunct); the failure is the `FileTooLarge`
error exactly when the extension and content-type checks pass (second
conjunct); and a file whose byte length equals the maximum and passes every
other check validates successfully — the bound is inclusive (third
conjunct). -/
theorem validate_size_boundary :
    (∀ (cfg : ProcessingConfig) (fn : String) (bytes : List Byte) (mime : String),
      cfg.max_file_size < bytes.length →
      ∀ info, validate_file cfg fn bytes mime ≠ .ok info) ∧
    (∀ (cfg : ProcessingConfig) (fn : String) (bytes : List Byte) (mime : String),
      extensionAllowed cfg fn → mimeAccepted cfg fn mime →
      cfg.max_file_size < bytes.length →
      validate_file cfg fn bytes mime =
        .error ("File size (" ++ toString bytes.length ++
          " bytes) exceeds limit (" ++ toString cfg.max_file_size ++ " bytes)")) ∧
    (∀ (cfg : ProcessingConfig) (fn : String) (bytes : List Byte) (mime : String),
      extensionAllowed cfg fn → mimeAccepted cfg fn mime →
      bytes.length = cfg.max_file_size → filenameSafe fn →
      validate_file cfg fn bytes mime = .ok (get_file_info fn bytes mime)) := by
  refine ⟨?_, ?_, ?_⟩
  · intro cfg fn bytes mime hsz info h
    unfold validate_file at h
    simp only [get_file_info] at h
    by_cases h1 : pyLower (pathSuffix fn) ∉ cfg.allowed_extensions
    · rw [if_pos h1] at h; cases h
    · rw [if_neg h1] at h
      by_cases h2 : get_expected_mime_types cfg (pyLower (pathSuffix fn)) ≠ [] ∧
          mime ∉ get_expected_mime_types cfg (pyLower (pathSuffix fn))
      · rw [if_pos h2] at h; cases h
      · rw [if_neg h2] at h
        rw [if_pos hsz] at h
        cases h
  · intro cfg fn bytes mime hext hmime hsz
    unfold validate_file
    simp only [get_file_info]
    rw [if_neg (not_not_intro
      (hext : pyLower (pathSuffix fn) ∈ cfg.allowed_extensions))]
    rw [if_neg (fun hc => hc.2 (hmime.resolve_left hc.1))]
    rw [if_pos hsz]
  · intro cfg fn bytes mime hext hmime hsz hsafe
    unfold validate_file
    simp only [get_file_info]
    rw [if_neg (not_not_intro
      (hext : pyLower (pathSuffix fn) ∈ cfg.allowed_extensions))]
    rw [if_neg (fun hc => hc.2 (hmime.resolve_left hc.1))]
    rw [if_neg (hsz ▸ Nat.lt_irrefl cfg.max_file_size)]
    rw [if_neg (fun hc => hc.elim
      (fun h => by rw [hsafe.1] at h; cases h)
      (fun h => by rw [hsafe.2] at h; cases h))]

/-- Witness for C6 (amended): under the 2-byte limit, a valid `.txt` file of
3 bytes is rejected with the `FileTooLarge` message, and one of exactly 2
bytes validates. -/
theorem validate_size_boundary_witness :
    (extensionAllowed cfgTiny "a.txt" ∧ mimeAccepted cfgTiny "a.txt" "text/plain" ∧
      filenameSafe "a.txt") ∧
    validate_file cfgTiny "a.txt" [0, 0, 0] "text/plain" =
      .error ("File size (" ++ toString (3 : Nat) ++
        " bytes) exceeds limit (" ++ toString (2 : Nat) ++ " bytes)") ∧
    validate_file cfgTiny "a.txt" [0, 0] "text/plain" =
      .ok (get_file_info "a.txt" [0, 0] "text/plain") :=
  ⟨⟨by decide, by decide, by decide⟩,
   validate_size_boundary.2.1 cfgTiny "a.txt" [0, 0, 0] "text/plain"
     (by decide) (by decide) (by decide),
   validate_size_boundary.2.2 cfgTiny "a.txt" [0, 0] "text/plain"
     (by decide) (by decide) (by decide) (by decide)⟩

/-- Counterexample to C7 as stated: the filename `../secret` contains `..`
yet validation fails with the `UnsupportedExtension` error (its suffix is
empty), not with the `UnsafeFilename` error — the filename check is the
last of the four and earlier failures mask it. -/
theorem unsafe_filename_masked_cex :
    validate_file defaultConfig "../secret" [] "text/plain" =
      .error "Unsupported file extension: " ∧
    validate_file defaultConfig "../secret" [] "text/plain" ≠
      .error "Invalid filename: potential path traversal detected" := by
  exact ⟨rfl, by decide⟩

/-- C7 (amended): a filename containing `..` or starting with `/` never
passes validation (first conjunct), and when the extension, content-type
and size checks all pass, the reported failure is exactly the
`UnsafeFilename` error (second conjunct). -/
theorem validate_unsafe_filename :
    (∀ (cfg : ProcessingConfig) (fn : String) (bytes : List Byte) (mime : String),
      (pyContains fn ".." = true ∨ pyStartsWith fn "/" = true) →
      ∀ info, validate_file cfg fn bytes mime ≠ .ok info) ∧
    (∀ (cfg : ProcessingConfig) (fn : String) (bytes : List Byte) (mime : String),
      extensionAllowed cfg fn → mimeAccepted cfg fn mime →
      bytes.length ≤ cfg.max_file_size →
      (pyContains fn ".." = true ∨ pyStartsWith fn "/" = true) →
      validate_file cfg fn bytes mime =
        .error "Invalid filename: potential path traversal detected") := by
  constructor
  · intro cfg fn bytes mime hunsafe info h
    unfold validate_file at h
    simp only [get_file_info] at h
    by_cases h1 : pyLower (pathSuffix fn) ∉ cfg.allowed_extensions
    · rw [if_pos h1] at h; cases h
    · rw [if_neg h1] at h
      by_cases h2 : get_expected_mime_types cfg (pyLower (pathSuffix fn)) ≠ [] ∧
          mime ∉ get_expected_mime_types cfg (pyLower (pathSuffix fn))
      · rw [if_pos h2] at h; cases h
      · rw [if_neg h2] at h
        by_cases h3 : bytes.length > cfg.max_file_size
        · rw [if_pos h3] at h; cases h
        · rw [if_neg h3] at h
          rw [if_pos hunsafe] at h
          cases h
  · intro cfg fn bytes mime hext hmime hsz hunsafe
    unfold validate_file
    simp only [get_file_info]
    rw [if_neg (not_not_intro
      (hext : pyLower (pathSuffix fn) ∈ cfg.allowed_extensions))]
    rw [if_neg (fun hc => hc.2 (hmime.resolve_left hc.1))]
    rw [if_neg (Nat.not_lt.mpr hsz)]
    rw [if_pos hunsafe]

/-- Witness for C7 (amended): the filename `../a.txt` passes the extension,
content-type and size checks and is rejected with the path-traversal
message. -/
theorem validate_unsafe_filename_witness :
    (extensionAllowed defaultConfig "../a.txt" ∧
      mimeAccepted defaultConfig "../a.txt" "text/plain" ∧
      pyContains "../a.txt" ".." = true) ∧
    validate_file defaultConfig "../a.txt" [0] "text/plain" =
      .error "Invalid filename: potential path traversal detected" :=
  ⟨⟨by decide, by decide, by decide⟩,
   validate_unsafe_filename.2 defaultConfig "../a.txt" [0] "text/plain"
     (by decide) (by decide) (by decide) (Or.inl (by decide))⟩

/-- C1 (code bug): the concurrent batch entry point aborts the whole batch.
On the claim's own scenario — three files of which the second fails
validation (its name contains `..`) — the first task-creation call
`process_single_file_async(filename, file_bytes)` already raises
`TypeError` (the method takes one positional argument, a `cl.File`, but is
handed two), outside the per-file `try`, so no 3-entry result map is ever
produced: the function raises for every non-empty batch. -/
theorem batch_async_typeerror_aborts :
    batch_process_documents_async defaultConfig envOkChat
      [("f1.txt", helloBytes), ("f2..txt", helloBytes), ("f3.txt", helloBytes)] =
      .error "DocumentProcessor.process_single_file_async() takes 2 positional arguments but 3 were given" := by
  rfl

/-- C2 (code bug): the sequential batch mode stores an error string for
every file, even one that the proper single-file pipeline processes
successfully.  The loop body calls
`process_document_async(filename, file_bytes)` without the required
`file_mime` argument (and without `await`), so the call raises `TypeError`
at binding time, the per-file handler catches it, and the stored value is
the `TypeError` text — never the file's processed content (second
conjunct: the same file succeeds when the three-argument pipeline is used
directly). -/
theorem batch_sync_typeerror_strings :
    batch_process_documents defaultConfig envOkChat [("a.txt", helloBytes)] =
      [("a.txt",
        "Error processing a.txt: DocumentProcessor.process_document_async() missing 1 required positional argument: \x27file_mime\x27")] ∧
    (process_document_async defaultConfig envOkChat "a.txt" helloBytes
      "text/plain").1 = .ok "SUMMARY TEXT" := by
  exact ⟨rfl, rfl⟩

end DocPipe
